import Mathlib

/-!
Shallow embedding of `src/solver/model.py` (Google Hash Code 2019
qualification round, slideshow scoring): photos, slide variants,
slideshows with incrementally maintained scores, parsing and
serialization — together with theorems settling the specification
claims about this code.

Modelling conventions:
* Python `int` is modelled as `ℤ` (arbitrary precision, may be negative).
* Python `set` of tag strings is modelled as `Finset String`.
* Python `assert` failures and exceptions are modelled by returning
  `Except PyError _` from the fallible operations, with one error
  constructor per distinct failure mode.
* Python line splitting `str.split("\n")` / `str.split(" ")` keeps empty
  fields and always yields at least one (possibly empty) field; it is
  modelled by the structurally recursive `pySplit` below so that every
  parsing function evaluates inside the kernel.
-/

/-- The failure modes of the code: the two parsing assertions of
`Photo.from_str`, the slide-construction assertions, and the exceptions
Python raises from `args[1]` (out of range) and `int(args[1])`
(non-numeric). -/
inductive PyError where
  | invalidOrientation
  | tagCountMismatch
  | orientationMismatch
  | indexError
  | valueError
  deriving DecidableEq, Repr

/-- `score_tags(first, second)` from `model.py`:
`min(len(A ∩ B), len(A) - len(A ∩ B), len(B) - len(A ∩ B))`, computed
over `ℤ` since Python subtraction is on unbounded signed integers. -/
def score_tags (first second : Finset String) : ℤ :=
  let common_tags : ℤ := ((first ∩ second).card : ℤ)
  let first_diff : ℤ := (first.card : ℤ) - common_tags
  let second_diff : ℤ := (second.card : ℤ) - common_tags
  min common_tags (min first_diff second_diff)

/-- The `Photo` record: id, orientation (the code stores the raw string,
`"H"` or `"V"` for well-formed photos), and the tag set. -/
structure Photo where
  photo_id : ℤ
  orientation : String
  tags : Finset String
  deriving DecidableEq

deriving instance DecidableEq for Except

/-- Worker for `pySplit`: `acc` holds the characters of the current field
in reverse order. -/
def pySplitAux (sep : Char) : List Char → List Char → List String
  | [], acc => [String.mk acc.reverse]
  | c :: cs, acc =>
    if c = sep then String.mk acc.reverse :: pySplitAux sep cs []
    else pySplitAux sep cs (c :: acc)

/-- Model of Python `s.split(sep)` for a single-character separator:
splits at every occurrence of `sep`, keeping empty fields, so the result
always has one more field than there are separators (in particular it is
never empty: `"".split(sep) == [""]`). -/
def pySplit (sep : Char) (s : String) : List String :=
  pySplitAux sep s.toList []

/-- Helper for `pyInt`: reads a nonempty all-ASCII-digit character list as
a natural number, `none` otherwise. -/
def digitsToNat : List Char → Option ℕ
  | [] => none
  | cs =>
    cs.foldl
      (fun acc c =>
        match acc with
        | none => none
        | some n => if c.isDigit then some (n * 10 + (c.toNat - 48)) else none)
      (some 0)

/-- Model of Python `int(s)` on strings: optional surrounding whitespace,
optional sign, then ASCII decimal digits; anything else raises
`ValueError` (modelled as `none`). Underscore digit grouping and
non-ASCII digits are not modelled. -/
def pyInt (s : String) : Option ℤ :=
  let trimmed :=
    (((s.toList.dropWhile Char.isWhitespace).reverse.dropWhile
      Char.isWhitespace).reverse)
  match trimmed with
  | '-' :: rest => (digitsToNat rest).map (fun n => -(n : ℤ))
  | '+' :: rest => (digitsToNat rest).map (fun n => (n : ℤ))
  | cs => (digitsToNat cs).map (fun n => (n : ℤ))

/-- `Photo.from_str(photo_id, line)` from `model.py`:
`args = line.split(" ")`; assert `args[0] ∈ {"H","V"}` (else
`InvalidOrientation`); `tags = set(args[2:])`; assert
`len(tags) == int(args[1])` (else `TagCountMismatch`), where `args[1]`
raises `IndexError` when the line has fewer than two tokens and
`int(...)` raises `ValueError` on a non-numeric token. `line.split(" ")`
always yields at least one (possibly empty) token, so `args[0]` is
`args.headD ""`. -/
def Photo.from_str (photo_id : ℤ) (line : String) : Except PyError Photo :=
  let args : List String := pySplit ' ' line
  let orientation : String := args.headD ""
  if orientation = "H" ∨ orientation = "V" then
    let tags : Finset String := (args.drop 2).toFinset
    match args[1]? with
    | none => .error .indexError
    | some countStr =>
      match pyInt countStr with
      | none => .error .valueError
      | some c =>
        if (tags.card : ℤ) = c then .ok ⟨photo_id, orientation, tags⟩
        else .error .tagCountMismatch
  else .error .invalidOrientation

/-- The per-line loop of `Photo.from_file`: the list comprehension
`[Photo.from_str(pid, x) for pid, x in enumerate(photos_lines)]`, which
parses lines left to right with consecutive ids starting at `pid` and
propagates the first failure. -/
def Photo.from_str_all (pid : ℤ) : List String → Except PyError (List Photo)
  | [] => .ok []
  | x :: xs =>
    match Photo.from_str pid x with
    | .error e => .error e
    | .ok p =>
      match Photo.from_str_all (pid + 1) xs with
      | .error e => .error e
      | .ok ps => .ok (p :: ps)

/-- `Photo.from_file` from `model.py`, with the file-reading collaborator
factored out: takes the raw file content, splits on `"\n"`, drops the
first and last entries (`content.split("\n")[1:-1]`), and parses each
retained line with its 0-indexed position as the photo id. -/
def Photo.from_file (content : String) : Except PyError (List Photo) :=
  let photos_lines : List String := ((pySplit '\n' content).drop 1).dropLast
  Photo.from_str_all 0 photos_lines

/-- `HorizontalSlide`: wraps one photo. The orientation assertion of
`__init__` lives in `HorizontalSlide.init` below; this structure is the
state of a successfully constructed instance. -/
structure HorizontalSlide where
  photo : Photo
  deriving DecidableEq

/-- `VerticalSlide`: wraps two photos, `first` and `second` in
construction order. The orientation assertion of `__init__` lives in
`VerticalSlide.init` below. -/
structure VerticalSlide where
  first : Photo
  second : Photo
  deriving DecidableEq

/-- `HorizontalSlide.__init__(photo)`: asserts
`photo.orientation == "H"`, else the construction fails. -/
def HorizontalSlide.init (photo : Photo) : Except PyError HorizontalSlide :=
  if photo.orientation = "H" then .ok ⟨photo⟩
  else .error .orientationMismatch

/-- `VerticalSlide.__init__(first, second)`: asserts
`first.orientation == "V" and second.orientation == "V"`, else the
construction fails. No other condition is checked. -/
def VerticalSlide.init (first second : Photo) : Except PyError VerticalSlide :=
  if first.orientation = "V" ∧ second.orientation = "V" then .ok ⟨first, second⟩
  else .error .orientationMismatch

/-- Python `tuple(sorted((a, b)))` for a two-element tuple: the ids in
ascending order (`sorted` is stable, so equal ids keep their order). -/
def sortedPair (a b : ℤ) : ℤ × ℤ :=
  if a ≤ b then (a, b) else (b, a)

/-- A Python value on the other side of an `==` comparison: one of the
two slide classes, or a value of any unrelated type (photos, ints,
strings, `None`). Both `__eq__` methods start with an `isinstance` check
and return `False` for everything that is not their own class. -/
inductive PyValue where
  | hslide (h : HorizontalSlide)
  | vslide (v : VerticalSlide)
  | photoVal (p : Photo)
  | intVal (n : ℤ)
  | strVal (s : String)
  | noneVal
  deriving DecidableEq

/-- `HorizontalSlide.__eq__`: `isinstance(other, HorizontalSlide) and
self.photo.photo_id == other.photo.photo_id`. -/
def HorizontalSlide.eq (h : HorizontalSlide) : PyValue → Bool
  | .hslide h2 => h.photo.photo_id == h2.photo.photo_id
  | _ => false

/-- `VerticalSlide.__eq__`: `False` unless `other` is a `VerticalSlide`,
otherwise compares the sorted id pairs of both slides. -/
def VerticalSlide.eq (v : VerticalSlide) : PyValue → Bool
  | .vslide w =>
    sortedPair v.first.photo_id v.second.photo_id ==
      sortedPair w.first.photo_id w.second.photo_id
  | _ => false

/-- CPython's hash of an `int` (64-bit build): reduce the absolute value
modulo the Mersenne prime `2^61 - 1`, reapply the sign, and map `-1` to
`-2` (`-1` is reserved as the C error sentinel). -/
def pyIntHash (n : ℤ) : ℤ :=
  let m : ℤ := ((n.natAbs % (2 ^ 61 - 1) : ℕ) : ℤ)
  let h : ℤ := if n < 0 then -m else m
  if h = -1 then -2 else h

/-- Cast of a signed 64-bit hash value to `Py_uhash_t` (unsigned 64-bit
two's complement). -/
def toU64 (h : ℤ) : ℕ :=
  (h % (2 ^ 64 : ℤ)).toNat

/-- One accumulation step of CPython's tuple hash (the xxHash-style
scheme of CPython ≥ 3.8 on a 64-bit build): add `lane * XXPRIME_2`,
rotate left by 31, multiply by `XXPRIME_1`, all modulo `2^64`. -/
def pyTupleHashStep (acc lane : ℕ) : ℕ :=
  let mixed := (acc + lane * 14029467366897019727) % 2 ^ 64
  let rotated := mixed * 2 ^ 31 % 2 ^ 64 + mixed / 2 ^ 33
  rotated * 11400714785074694791 % 2 ^ 64

/-- CPython's hash of a pair of ints (64-bit build): fold
`pyTupleHashStep` over both components' int hashes starting from
`XXPRIME_5`, add `len ^ (XXPRIME_5 ^ 3527539)` (bitwise xor), replace
the error sentinel `(Py_uhash_t)-1` by `1546275796`, and reinterpret the
unsigned result as signed. -/
def pyTupleHash2 (p : ℤ × ℤ) : ℤ :=
  let acc :=
    pyTupleHashStep
      (pyTupleHashStep 2870177450012600261 (toU64 (pyIntHash p.1)))
      (toU64 (pyIntHash p.2))
  let acc2 : ℕ := (acc + Nat.xor 2 (Nat.xor 2870177450012600261 3527539)) % 2 ^ 64
  if acc2 = 2 ^ 64 - 1 then 1546275796
  else if acc2 < 2 ^ 63 then (acc2 : ℤ)
  else (acc2 : ℤ) - 2 ^ 64

/-- `VerticalSlide.__hash__`: `hash(tuple(sorted((first_id, second_id))))`. -/
def VerticalSlide.hash (v : VerticalSlide) : ℤ :=
  pyTupleHash2 (sortedPair v.first.photo_id v.second.photo_id)

/-- A slide of either variant, as stored in a `Slideshow`. -/
inductive Slide where
  | horizontal (h : HorizontalSlide)
  | vertical (v : VerticalSlide)
  deriving DecidableEq

/-- The `tags` property: a horizontal slide exposes its photo's tags, a
vertical slide the union of both photos' tags. -/
def Slide.tags : Slide → Finset String
  | .horizontal h => h.photo.tags
  | .vertical v => v.first.tags ∪ v.second.tags

/-- `Slide.score(self, other) = score_tags(self.tags, other.tags)`. -/
def Slide.score (s other : Slide) : ℤ :=
  score_tags s.tags other.tags

/-- `Slide.__repr__`: a horizontal slide prints its photo id, a vertical
slide prints `"first_id second_id"` in construction order. -/
def Slide.repr : Slide → String
  | .horizontal h => toString h.photo.photo_id
  | .vertical v => toString v.first.photo_id ++ " " ++ toString v.second.photo_id

/-- `Slideshow` state: the slide list and the cached score `_score`. -/
structure Slideshow where
  slides : List Slide
  _score : ℤ
  deriving DecidableEq

/-- `Slideshow.__init__`: empty slide list, cached score 0. -/
def Slideshow.empty : Slideshow :=
  ⟨[], 0⟩

/-- `Slideshow.append(slide)`: if the slide list is nonempty, add
`self.slides[-1].score(slide)` to the cached score first; then append
the slide at the end. -/
def Slideshow.append (s : Slideshow) (slide : Slide) : Slideshow :=
  match s.slides.getLast? with
  | none => ⟨s.slides ++ [slide], s._score⟩
  | some last => ⟨s.slides ++ [slide], s._score + Slide.score last slide⟩

/-- `Slideshow.score()`: returns the cached running total. -/
def Slideshow.score (s : Slideshow) : ℤ :=
  s._score

/-- The loop body of `Slideshow.from_list`: append each slide of the
list in order to the given slideshow. -/
def Slideshow.appendAll (s : Slideshow) : List Slide → Slideshow
  | [] => s
  | x :: xs => Slideshow.appendAll (s.append x) xs

/-- `Slideshow.from_list(slides_list)`: create an empty slideshow and
append every slide of the list in order. -/
def Slideshow.from_list (slides_list : List Slide) : Slideshow :=
  Slideshow.appendAll Slideshow.empty slides_list

/-- Model of Python `sep.join(strs)`: the fields interleaved with the
separator (empty string on the empty list). -/
def pyJoin (sep : String) : List String → String
  | [] => ""
  | [x] => x
  | x :: xs => x ++ sep ++ pyJoin sep xs

/-- `Slideshow.to_string()`:
`"{}\n".format(len(self.slides)) + "\n".join(str(x) for x in self.slides) + "\n"`. -/
def Slideshow.to_string (s : Slideshow) : String :=
  toString s.slides.length ++ "\n" ++ pyJoin "\n" (s.slides.map Slide.repr) ++ "\n"

/-- The sum of `score_tags` over all adjacent slide pairs of a list —
the quantity the specification says the cached score always equals. -/
def adjScore : List Slide → ℤ
  | a :: b :: rest => Slide.score a b + adjScore (b :: rest)
  | _ => 0

/-- The adjacent slide pairs (transitions) of a slide list. -/
def transitions (l : List Slide) : List (Slide × Slide) :=
  l.zip l.tail

/-- The output format as the specification words it: the count line,
then exactly one newline-terminated line per slide (so a trailing
newline after the final slide line, and nothing after the count line of
an empty slideshow). Written from the spec, to be compared with
`Slideshow.to_string`. -/
def specSerializeLines : List String → String
  | [] => ""
  | x :: xs => x ++ "\n" ++ specSerializeLines xs

/-- The spec-worded serialization of a whole slideshow; see
`specSerializeLines`. -/
def specSerialize (s : Slideshow) : String :=
  toString s.slides.length ++ "\n" ++ specSerializeLines (s.slides.map Slide.repr)

/-! ## Sanity checks: the definitions compute as the source does -/

example : score_tags ({"a", "b", "c"} : Finset String) {"c", "d", "e"} = 1 := by decide
example : score_tags ({"a", "b"} : Finset String) {"a", "b", "c"} = 0 := by decide
example : Photo.from_str 0 "H 2 a b" = .ok ⟨0, "H", {"a", "b"}⟩ := by decide
example : Photo.from_str 0 "X 1 a" = .error .invalidOrientation := by decide
example : Photo.from_str 0 "H 2 a a" = .error .tagCountMismatch := by decide
example : Photo.from_str 0 "H" = .error .indexError := by decide
example : Photo.from_str 0 "H x a" = .error .valueError := by decide
example : Photo.from_file "2\nH 2 a b\nV 1 c\n" =
    .ok [⟨0, "H", {"a", "b"}⟩, ⟨1, "V", {"c"}⟩] := by decide

/-! ## Helper lemmas -/

theorem sortedPair_comm (a b : ℤ) : sortedPair a b = sortedPair b a := by
  unfold sortedPair
  rcases le_total a b with h | h
  · rcases eq_or_lt_of_le h with rfl | hlt
    · simp
    · rw [if_pos h, if_neg (not_le.mpr hlt)]
  · rcases eq_or_lt_of_le h with rfl | hlt
    · simp
    · rw [if_neg (not_le.mpr hlt), if_pos h]

theorem Slideshow.append_slides (s : Slideshow) (x : Slide) :
    (s.append x).slides = s.slides ++ [x] := by
  unfold Slideshow.append
  cases s.slides.getLast? <;> rfl

theorem adjScore_concat (l : List Slide) (x : Slide) :
    adjScore (l ++ [x]) = adjScore l + (l.getLast?.elim 0 (fun a => Slide.score a x)) := by
  induction l with
  | nil => simp [adjScore]
  | cons a rest ih =>
    cases rest with
    | nil => simp [adjScore]
    | cons b rest2 =>
      simp only [List.cons_append, List.append_eq, adjScore] at ih ⊢
      rw [ih, List.getLast?_cons_cons]
      ring

theorem Slideshow.appendAll_slides (s : Slideshow) (l : List Slide) :
    (Slideshow.appendAll s l).slides = s.slides ++ l := by
  induction l generalizing s with
  | nil => simp [Slideshow.appendAll]
  | cons x xs ih =>
    simp [Slideshow.appendAll, ih, Slideshow.append_slides]

theorem Slideshow.appendAll_score (s : Slideshow) (l : List Slide)
    (h : s._score = adjScore s.slides) :
    (Slideshow.appendAll s l)._score = adjScore (s.slides ++ l) := by
  induction l generalizing s with
  | nil => simpa [Slideshow.appendAll] using h
  | cons x xs ih =>
    have hs : (s.append x)._score = adjScore ((s.append x).slides) := by
      rw [Slideshow.append_slides, adjScore_concat, ← h]
      unfold Slideshow.append
      cases hl : s.slides.getLast? <;> simp [hl]
    have hrec := ih (s.append x) hs
    rw [Slideshow.append_slides] at hrec
    simpa [Slideshow.appendAll, List.append_assoc] using hrec

/-! ## Claim theorems -/

/-- Claim C1: appending slides one at a time to an empty slideshow keeps
the cached total equal to the sum of `score_tags` over all adjacent
slide pairs; the empty slideshow scores 0, a first append adds nothing,
and a list of N appended slides has exactly N - 1 transitions. -/
theorem c1_score_invariant :
    Slideshow.empty.score = 0 ∧
    (∀ s : Slide, (Slideshow.empty.append s).score = 0) ∧
    (∀ l : List Slide,
      (Slideshow.appendAll Slideshow.empty l).score = adjScore l ∧
      (Slideshow.appendAll Slideshow.empty l).slides = l ∧
      (transitions l).length = l.length - 1) := by
  refine ⟨rfl, fun s => rfl, fun l => ⟨?_, ?_, ?_⟩⟩
  · simpa [Slideshow.score, Slideshow.empty] using
      Slideshow.appendAll_score Slideshow.empty l rfl
  · simpa [Slideshow.empty] using Slideshow.appendAll_slides Slideshow.empty l
  · simp only [transitions, List.length_zip, List.length_tail]
    omega

/-- Claim C2: `score_tags(A, B)` equals
`min(|A ∩ B|, |A| - |A ∩ B|, |B| - |A ∩ B|)`, is symmetric, and is
non-negative. -/
theorem c2_score_tags_formula (A B : Finset String) :
    score_tags A B =
      min ((A ∩ B).card : ℤ)
        (min ((A.card : ℤ) - ((A ∩ B).card : ℤ))
          ((B.card : ℤ) - ((A ∩ B).card : ℤ))) ∧
    score_tags A B = score_tags B A ∧
    0 ≤ score_tags A B := by
  have h1 : (A ∩ B).card ≤ A.card := Finset.card_le_card Finset.inter_subset_left
  have h2 : (A ∩ B).card ≤ B.card := Finset.card_le_card Finset.inter_subset_right
  refine ⟨rfl, ?_, ?_⟩
  · have hc : A ∩ B = B ∩ A := Finset.inter_comm A B
    simp only [score_tags, hc]
    exact congrArg (min _) (min_comm _ _)
  · simp only [score_tags, le_min_iff]
    refine ⟨by positivity, ?_, ?_⟩ <;> omega

/-- Claim C4: `Slideshow.from_list` produces exactly the slideshow
obtained by starting from the empty slideshow and appending each listed
slide in order — same slide sequence, same running score. -/
theorem c4_from_list_is_sequential_appends (l : List Slide) :
    Slideshow.from_list l = Slideshow.appendAll Slideshow.empty l ∧
    (Slideshow.from_list l).slides = l ∧
    (Slideshow.from_list l).score = adjScore l :=
  ⟨rfl,
   by simpa [Slideshow.empty] using Slideshow.appendAll_slides Slideshow.empty l,
   by simpa [Slideshow.score, Slideshow.empty] using
     Slideshow.appendAll_score Slideshow.empty l rfl⟩

/-- Claim C3: for distinct Vertical photos, both construction orders
succeed, the two resulting `VerticalSlide`s compare equal in both
directions, and they hash identically — equality and hashing are keyed
on the sorted id pair, independent of construction order. -/
theorem c3_vertical_slide_order_independent (p1 p2 : Photo)
    (h1 : p1.orientation = "V") (h2 : p2.orientation = "V")
    (hne : p1.photo_id ≠ p2.photo_id) :
    VerticalSlide.init p1 p2 = .ok ⟨p1, p2⟩ ∧
    VerticalSlide.init p2 p1 = .ok ⟨p2, p1⟩ ∧
    VerticalSlide.eq ⟨p1, p2⟩ (.vslide ⟨p2, p1⟩) = true ∧
    VerticalSlide.eq ⟨p2, p1⟩ (.vslide ⟨p1, p2⟩) = true ∧
    VerticalSlide.hash ⟨p1, p2⟩ = VerticalSlide.hash ⟨p2, p1⟩ := by
  have hsp : sortedPair p1.photo_id p2.photo_id =
      sortedPair p2.photo_id p1.photo_id := sortedPair_comm _ _
  refine ⟨?_, ?_, ?_, ?_, ?_⟩
  · simp [VerticalSlide.init, h1, h2]
  · simp [VerticalSlide.init, h1, h2]
  · simp [VerticalSlide.eq, hsp]
  · simp [VerticalSlide.eq, hsp]
  · simp [VerticalSlide.hash, hsp]

/-- Witness for C3 at two concrete distinct Vertical photos. -/
theorem c3_witness :
    VerticalSlide.init ⟨0, "V", {"a"}⟩ ⟨1, "V", {"b"}⟩ =
      .ok ⟨⟨0, "V", {"a"}⟩, ⟨1, "V", {"b"}⟩⟩ ∧
    VerticalSlide.init ⟨1, "V", {"b"}⟩ ⟨0, "V", {"a"}⟩ =
      .ok ⟨⟨1, "V", {"b"}⟩, ⟨0, "V", {"a"}⟩⟩ ∧
    VerticalSlide.eq ⟨⟨0, "V", {"a"}⟩, ⟨1, "V", {"b"}⟩⟩
      (.vslide ⟨⟨1, "V", {"b"}⟩, ⟨0, "V", {"a"}⟩⟩) = true ∧
    VerticalSlide.eq ⟨⟨1, "V", {"b"}⟩, ⟨0, "V", {"a"}⟩⟩
      (.vslide ⟨⟨0, "V", {"a"}⟩, ⟨1, "V", {"b"}⟩⟩) = true ∧
    VerticalSlide.hash ⟨⟨0, "V", {"a"}⟩, ⟨1, "V", {"b"}⟩⟩ =
      VerticalSlide.hash ⟨⟨1, "V", {"b"}⟩, ⟨0, "V", {"a"}⟩⟩ :=
  c3_vertical_slide_order_independent ⟨0, "V", {"a"}⟩ ⟨1, "V", {"b"}⟩
    rfl rfl (by decide)

/-- Claim C7: slide construction rejects photos of the wrong
orientation with `OrientationMismatch` and never coerces: a
`HorizontalSlide` requires orientation `"H"`, a `VerticalSlide`
requires both photos to have orientation `"V"`. -/
theorem c7_construction_checks_orientation :
    (∀ p : Photo,
      (p.orientation = "H" → HorizontalSlide.init p = .ok ⟨p⟩) ∧
      (p.orientation ≠ "H" →
        HorizontalSlide.init p = .error .orientationMismatch)) ∧
    (∀ p q : Photo,
      (p.orientation = "V" → q.orientation = "V" →
        VerticalSlide.init p q = .ok ⟨p, q⟩) ∧
      (¬(p.orientation = "V" ∧ q.orientation = "V") →
        VerticalSlide.init p q = .error .orientationMismatch)) := by
  constructor
  · intro p
    constructor <;> intro h <;> simp [HorizontalSlide.init, h]
  · intro p q
    constructor
    · intro h1 h2
      simp [VerticalSlide.init, h1, h2]
    · intro h
      simp only [VerticalSlide.init]
      rw [if_neg h]

/-- Witness for C7: a correct and an incorrect construction of each
slide variant at concrete photos. -/
theorem c7_witness :
    HorizontalSlide.init ⟨0, "H", {"a"}⟩ = .ok ⟨⟨0, "H", {"a"}⟩⟩ ∧
    HorizontalSlide.init ⟨1, "V", {"b"}⟩ = .error .orientationMismatch ∧
    VerticalSlide.init ⟨1, "V", {"b"}⟩ ⟨2, "V", {"c"}⟩ =
      .ok ⟨⟨1, "V", {"b"}⟩, ⟨2, "V", {"c"}⟩⟩ ∧
    VerticalSlide.init ⟨0, "H", {"a"}⟩ ⟨2, "V", {"c"}⟩ =
      .error .orientationMismatch :=
  ⟨(c7_construction_checks_orientation.1 ⟨0, "H", {"a"}⟩).1 rfl,
   (c7_construction_checks_orientation.1 ⟨1, "V", {"b"}⟩).2 (by decide),
   (c7_construction_checks_orientation.2 ⟨1, "V", {"b"}⟩ ⟨2, "V", {"c"}⟩).1 rfl rfl,
   (c7_construction_checks_orientation.2 ⟨0, "H", {"a"}⟩ ⟨2, "V", {"c"}⟩).2 (by decide)⟩

/-- Claim C9 is false on the code: `VerticalSlide.__init__` checks only
the orientations, so constructing a `VerticalSlide` from the same
Vertical photo twice succeeds. -/
theorem c9_counterexample :
    VerticalSlide.init ⟨0, "V", {"a"}⟩ ⟨0, "V", {"a"}⟩ =
      .ok ⟨⟨0, "V", {"a"}⟩, ⟨0, "V", {"a"}⟩⟩ := by decide

/-- Claim C9 (amended): `VerticalSlide` construction checks only the two
photos' orientations; any two Vertical photos are accepted, including
the same photo twice or two photos with equal ids — distinctness is not
enforced at construction time. -/
theorem c9_amended_no_distinctness_check (p q : Photo)
    (hp : p.orientation = "V") (hq : q.orientation = "V") :
    VerticalSlide.init p q = .ok ⟨p, q⟩ := by
  simp [VerticalSlide.init, hp, hq]

/-- Witness for the amended C9: the same Vertical photo used twice. -/
theorem c9_witness :
    VerticalSlide.init ⟨1, "V", {"b"}⟩ ⟨1, "V", {"b"}⟩ =
      .ok ⟨⟨1, "V", {"b"}⟩, ⟨1, "V", {"b"}⟩⟩ :=
  c9_amended_no_distinctness_check ⟨1, "V", {"b"}⟩ ⟨1, "V", {"b"}⟩ rfl rfl

/-- Claim C10: equality across slide variants, and against values of any
unrelated type, is `False` and never an error — both `__eq__`
implementations return `False` for anything that is not an instance of
their own class. -/
theorem c10_cross_variant_eq_false :
    (∀ (h : HorizontalSlide) (v : VerticalSlide),
      HorizontalSlide.eq h (.vslide v) = false ∧
      VerticalSlide.eq v (.hslide h) = false) ∧
    (∀ (h : HorizontalSlide) (x : PyValue),
      (∀ h2 : HorizontalSlide, x ≠ .hslide h2) →
      HorizontalSlide.eq h x = false) ∧
    (∀ (v : VerticalSlide) (x : PyValue),
      (∀ v2 : VerticalSlide, x ≠ .vslide v2) →
      VerticalSlide.eq v x = false) := by
  refine ⟨fun h v => ⟨rfl, rfl⟩, ?_, ?_⟩
  · intro h x hx
    cases x with
    | hslide h2 => exact absurd rfl (hx h2)
    | vslide v2 => rfl
    | photoVal p => rfl
    | intVal n => rfl
    | strVal s => rfl
    | noneVal => rfl
  · intro v x hx
    cases x with
    | vslide v2 => exact absurd rfl (hx v2)
    | hslide h2 => rfl
    | photoVal p => rfl
    | intVal n => rfl
    | strVal s => rfl
    | noneVal => rfl

/-- Witness for C10 at concrete slides and unrelated values. -/
theorem c10_witness :
    HorizontalSlide.eq ⟨⟨0, "H", {"a"}⟩⟩
      (.vslide ⟨⟨1, "V", {"b"}⟩, ⟨2, "V", {"c"}⟩⟩) = false ∧
    VerticalSlide.eq ⟨⟨1, "V", {"b"}⟩, ⟨2, "V", {"c"}⟩⟩
      (.hslide ⟨⟨0, "H", {"a"}⟩⟩) = false ∧
    HorizontalSlide.eq ⟨⟨0, "H", {"a"}⟩⟩ (.intVal 5) = false ∧
    VerticalSlide.eq ⟨⟨1, "V", {"b"}⟩, ⟨2, "V", {"c"}⟩⟩ .noneVal = false :=
  ⟨(c10_cross_variant_eq_false.1 ⟨⟨0, "H", {"a"}⟩⟩
      ⟨⟨1, "V", {"b"}⟩, ⟨2, "V", {"c"}⟩⟩).1,
   (c10_cross_variant_eq_false.1 ⟨⟨0, "H", {"a"}⟩⟩
      ⟨⟨1, "V", {"b"}⟩, ⟨2, "V", {"c"}⟩⟩).2,
   c10_cross_variant_eq_false.2.1 ⟨⟨0, "H", {"a"}⟩⟩ (.intVal 5)
     (fun h2 hc => PyValue.noConfusion hc),
   c10_cross_variant_eq_false.2.2 ⟨⟨1, "V", {"b"}⟩, ⟨2, "V", {"c"}⟩⟩ .noneVal
     (fun v2 hc => PyValue.noConfusion hc)⟩

/-- A successful `Photo.from_str` returns exactly the photo record built
from the given id, the orientation token, and the distinct tag tokens. -/
theorem Photo.from_str_ok_fields (pid : ℤ) (line : String) (p : Photo)
    (h : Photo.from_str pid line = .ok p) :
    p = ⟨pid, (pySplit ' ' line).headD "",
      ((pySplit ' ' line).drop 2).toFinset⟩ := by
  simp only [Photo.from_str] at h
  split at h
  · split at h
    · exact Except.noConfusion h
    · split at h
      · exact Except.noConfusion h
      · split at h
        · injection h with h2
          exact h2.symm
        · exact Except.noConfusion h
  · exact Except.noConfusion h

/-- A successful `Photo.from_str_all` parses every line of the list at
its position: the result has one photo per line, ids are consecutive
from `pid`, and each photo is the successful parse of its line. -/
theorem Photo.from_str_all_ok (lines : List String) (pid : ℤ)
    (photos : List Photo) (h : Photo.from_str_all pid lines = .ok photos) :
    photos.length = lines.length ∧
    ∀ i : ℕ, i < lines.length →
      ∃ p, photos[i]? = some p ∧ p.photo_id = pid + i ∧
        Photo.from_str (pid + i) (lines[i]?.getD "") = .ok p := by
  induction lines generalizing pid photos with
  | nil =>
    simp only [Photo.from_str_all] at h
    cases h
    simp
  | cons x xs ih =>
    simp only [Photo.from_str_all] at h
    cases hx : Photo.from_str pid x with
    | error e => rw [hx] at h; simp at h
    | ok p =>
      rw [hx] at h
      cases hxs : Photo.from_str_all (pid + 1) xs with
      | error e => rw [hxs] at h; simp at h
      | ok ps =>
        rw [hxs] at h
        simp only [Except.ok.injEq] at h
        subst h
        obtain ⟨hlen, hall⟩ := ih (pid + 1) ps hxs
        refine ⟨by simpa using hlen, ?_⟩
        intro i hi
        cases i with
        | zero =>
          refine ⟨p, by simp, ?_, by simpa using hx⟩
          have := Photo.from_str_ok_fields pid x p hx
          simp [this]
        | succ j =>
          obtain ⟨q, hq1, hq2, hq3⟩ := hall j (by simpa using hi)
          refine ⟨q, by simpa using hq1, ?_, ?_⟩
          · rw [hq2]; push_cast; ring
          · have : pid + 1 + (j : ℤ) = pid + ((j : ℕ) + 1 : ℕ) := by
              push_cast; ring
            rw [← this]
            simpa using hq3

/-- Claim C5: on content whose retained lines all parse, `from_file`
drops the first and last line of the split content and returns one photo
per retained line, with photo id equal to the line's 0-indexed position,
in input order. -/
theorem c5_from_file_positions (content : String) (photos : List Photo)
    (h : Photo.from_file content = .ok photos) :
    photos.length = (((pySplit '\n' content).drop 1).dropLast).length ∧
    ∀ i : ℕ, i < photos.length →
      ∃ p, photos[i]? = some p ∧ p.photo_id = (i : ℤ) ∧
        Photo.from_str (i : ℤ)
          (((((pySplit '\n' content).drop 1).dropLast))[i]?.getD "") = .ok p := by
  simp only [Photo.from_file] at h
  obtain ⟨hlen, hall⟩ :=
    Photo.from_str_all_ok (((pySplit '\n' content).drop 1).dropLast) 0 photos h
  refine ⟨hlen, fun i hi => ?_⟩
  have := hall i (by omega)
  simpa using this

/-- Witness for C5 at a concrete two-photo input file. -/
theorem c5_witness :
    ([⟨0, "H", {"a", "b"}⟩, ⟨1, "V", {"c"}⟩] : List Photo).length =
      (((pySplit '\n' "2\nH 2 a b\nV 1 c\n").drop 1).dropLast).length :=
  (c5_from_file_positions "2\nH 2 a b\nV 1 c\n"
    [⟨0, "H", {"a", "b"}⟩, ⟨1, "V", {"c"}⟩] (by decide)).1

/-- Claim C6 is false as stated: parsing can fail in ways other than the
two named kinds. The one-token line `"H"` has a valid orientation token
and no declared tag count at all, yet parsing fails (Python raises
`IndexError` at `args[1]`), which is neither `InvalidOrientation` nor
`TagCountMismatch`. -/
theorem c6_counterexample :
    Photo.from_str 0 "H" = .error PyError.indexError ∧
    PyError.indexError ≠ PyError.invalidOrientation ∧
    PyError.indexError ≠ PyError.tagCountMismatch ∧
    (pySplit ' ' "H").headD "" = "H" ∧
    (pySplit ' ' "H")[1]? = none := by decide

/-- Claim C6 (amended): restricted to lines with at least two
space-separated tokens whose second token parses as an integer, parsing
fails exactly when the orientation token is neither `"H"` nor `"V"`
(`InvalidOrientation`, checked first) or the declared tag count differs
from the number of distinct tag tokens that follow (`TagCountMismatch`,
which also rejects duplicate tag tokens since duplicates collapse under
set semantics); otherwise it returns a `Photo` with that orientation and
that tag set. (Lines with fewer than two tokens fail with an
`IndexError`, and a non-integer count token fails with a `ValueError`.) -/
theorem c6_amended_failure_classification (pid : ℤ) (line : String)
    (countStr : String) (htok : (pySplit ' ' line)[1]? = some countStr)
    (c : ℤ) (hc : pyInt countStr = some c) :
    ((∃ p, Photo.from_str pid line = .ok p) ↔
      (((pySplit ' ' line).headD "" = "H" ∨
          (pySplit ' ' line).headD "" = "V") ∧
        (((pySplit ' ' line).drop 2).toFinset.card : ℤ) = c)) ∧
    (¬((pySplit ' ' line).headD "" = "H" ∨
        (pySplit ' ' line).headD "" = "V") →
      Photo.from_str pid line = .error .invalidOrientation) ∧
    (((pySplit ' ' line).headD "" = "H" ∨
        (pySplit ' ' line).headD "" = "V") →
      (((pySplit ' ' line).drop 2).toFinset.card : ℤ) ≠ c →
      Photo.from_str pid line = .error .tagCountMismatch) ∧
    (∀ p, Photo.from_str pid line = .ok p →
      p = ⟨pid, (pySplit ' ' line).headD "",
        ((pySplit ' ' line).drop 2).toFinset⟩) := by
  have hfs : Photo.from_str pid line =
      if ((pySplit ' ' line).headD "" = "H" ∨
          (pySplit ' ' line).headD "" = "V") then
        (if (((pySplit ' ' line).drop 2).toFinset.card : ℤ) = c then
          .ok ⟨pid, (pySplit ' ' line).headD "",
            ((pySplit ' ' line).drop 2).toFinset⟩
        else .error .tagCountMismatch)
      else .error .invalidOrientation := by
    simp only [Photo.from_str, htok, hc]
  refine ⟨⟨?_, ?_⟩, ?_, ?_, ?_⟩
  · rintro ⟨p, hp⟩
    rw [hfs] at hp
    by_cases h1 : ((pySplit ' ' line).headD "" = "H" ∨
        (pySplit ' ' line).headD "" = "V")
    · rw [if_pos h1] at hp
      by_cases h2 : (((pySplit ' ' line).drop 2).toFinset.card : ℤ) = c
      · exact ⟨h1, h2⟩
      · rw [if_neg h2] at hp
        exact Except.noConfusion hp
    · rw [if_neg h1] at hp
      exact Except.noConfusion hp
  · rintro ⟨h1, h2⟩
    exact ⟨_, by rw [hfs, if_pos h1, if_pos h2]⟩
  · intro h1
    rw [hfs, if_neg h1]
  · intro h1 h2
    rw [hfs, if_pos h1, if_neg h2]
  · intro p hp
    exact Photo.from_str_ok_fields pid line p hp

/-- Witness for the amended C6: an invalid-orientation line and a
count-mismatch line, each with a numeric second token. -/
theorem c6_witness :
    Photo.from_str 7 "X 1 a" = .error .invalidOrientation ∧
    Photo.from_str 7 "V 1 a b" = .error .tagCountMismatch :=
  ⟨(c6_amended_failure_classification 7 "X 1 a" "1" (by decide)
      1 (by decide)).2.1 (by decide),
   (c6_amended_failure_classification 7 "V 1 a b" "1" (by decide)
      1 (by decide)).2.2.1 (by decide) (by decide)⟩

/-- A nonempty Python-style join followed by a final newline is the same
string as one newline-terminated line per list entry. -/
theorem pyJoin_terminated (l : List String) (h : l ≠ []) :
    pyJoin "\n" l ++ "\n" = specSerializeLines l := by
  induction l with
  | nil => exact absurd rfl h
  | cons x xs ih =>
    cases xs with
    | nil => simp [pyJoin, specSerializeLines]
    | cons y ys =>
      have h2 := ih (by simp)
      simp only [pyJoin, specSerializeLines] at h2 ⊢
      rw [← h2]
      simp [String.append_assoc]

/-- Claim C8 is false for the empty slideshow: `to_string` emits the
count line and then an extra blank line (`"0\n\n"`), not just the count
line with its newline. -/
theorem c8_counterexample :
    Slideshow.empty.to_string = "0\n\n" ∧
    specSerialize Slideshow.empty = "0\n" ∧
    Slideshow.empty.to_string ≠ specSerialize Slideshow.empty := by
  refine ⟨by decide, by decide, by decide⟩

/-- Claim C8 (amended): for every slideshow with at least one slide,
`to_string` produces the slide count line followed by one line per slide
in sequence order (photo id for a horizontal slide, the two photo ids in
construction order for a vertical slide), with a trailing newline after
the final slide line; the empty slideshow instead serializes as
`"0\n\n"`, with an extra blank line. -/
theorem c8_amended_serialize_nonempty (s : Slideshow) (h : s.slides ≠ []) :
    s.to_string = specSerialize s := by
  unfold Slideshow.to_string specSerialize
  rw [← pyJoin_terminated (s.slides.map Slide.repr) (by simpa using h)]
  simp [String.append_assoc]

/-- Witness for the amended C8 at a concrete one-slide slideshow. -/
theorem c8_witness :
    (Slideshow.from_list [Slide.horizontal ⟨⟨3, "H", {"a"}⟩⟩]).to_string =
      specSerialize (Slideshow.from_list [Slide.horizontal ⟨⟨3, "H", {"a"}⟩⟩]) :=
  c8_amended_serialize_nonempty
    (Slideshow.from_list [Slide.horizontal ⟨⟨3, "H", {"a"}⟩⟩]) (by decide)
